import Mathlib

/-!
Verification of the Risk & Position-Lifecycle Engine of trade-oracle.

Shallow embedding of:
- src/backend/utils/greeks.py (Black-Scholes Greeks),
- src/backend/api/risk.py (RiskManager.approve_trade),
- src/backend/strategies/iron_condor.py (create_multi_leg_order),
- src/backend/api/execution.py (parse_option_symbol, check_exit_conditions),
- src/backend/monitoring/position_monitor.py (check_strategy_specific_exit,
  monitor_positions).

Python Decimal arithmetic is modelled by exact rationals, floats by reals
(for the Greeks) or rationals (for the monitor branch comparisons).
-/

namespace TradeOracle

/-- Python int() applied to a Decimal/float truncates toward zero. -/
def pyInt (q : ℚ) : ℤ := if 0 ≤ q then ⌊q⌋ else ⌈q⌉

/-! ## RiskManager (src/backend/api/risk.py) -/

/-- models.trading.Signal: fields used by approve_trade. -/
structure Signal where
  symbol : String
  strategy : String
  entry_price : ℚ
  stop_loss : ℚ
  take_profit : ℚ
  deriving DecidableEq

/-- models.trading.Portfolio: fields used by approve_trade. -/
structure Portfolio where
  balance : ℚ
  daily_pnl : ℚ
  win_rate : ℚ
  consecutive_losses : ℕ
  deriving DecidableEq

/-- models.trading.StrategyStats: fields used by the Kelly computation.
approve_trade obtains these from get_strategy_stats (an external
Supabase lookup); the embedding passes them as an explicit argument. -/
structure StrategyStats where
  strategy_name : String
  win_rate : ℚ
  avg_win : ℚ
  avg_loss : ℚ
  total_trades : ℕ
  deriving DecidableEq

/-- One tag per distinct return site of RiskManager.approve_trade
(the Python reasoning strings are f-strings keyed by the same sites). -/
inductive RiskReason where
  | dailyLossLimit
  | consecutiveLossLimit
  | negativeKelly
  | zeroRiskPerContract
  | positionTooSmall
  | kellyApproved
  deriving DecidableEq

/-- models.trading.RiskApproval (position_size defaults to 0,
max_loss to Decimal 0). -/
structure RiskApproval where
  approved : Bool
  position_size : ℤ := 0
  max_loss : ℚ := 0
  reasoning : RiskReason
  deriving DecidableEq

def MAX_PORTFOLIO_RISK : ℚ := 2 / 100
def MAX_POSITION_SIZE : ℚ := 5 / 100
def DAILY_LOSS_LIMIT : ℚ := -3 / 100
def MAX_CONSECUTIVE_LOSSES : ℕ := 3

/-- RiskManager.approve_trade (src/backend/api/risk.py, lines 138-245).
The external stats lookup is passed in as `stats`. -/
def approve_trade (signal : Signal) (portfolio : Portfolio)
    (stats : StrategyStats) : RiskApproval :=
  let daily_loss_pct := portfolio.daily_pnl / portfolio.balance
  if daily_loss_pct ≤ DAILY_LOSS_LIMIT then
    { approved := false, reasoning := .dailyLossLimit }
  else if MAX_CONSECUTIVE_LOSSES ≤ portfolio.consecutive_losses then
    { approved := false, reasoning := .consecutiveLossLimit }
  else
    let loss_rate := 1 - stats.win_rate
    let kelly_pct :=
      (stats.win_rate * stats.avg_win - loss_rate * stats.avg_loss) / stats.avg_win
    let kelly_half := min (kelly_pct * (1 / 2)) MAX_PORTFOLIO_RISK
    if kelly_half ≤ 0 then
      { approved := false, reasoning := .negativeKelly }
    else
      let risk_per_trade := portfolio.balance * kelly_half
      let risk_per_contract := |signal.entry_price - signal.stop_loss| * 100
      if risk_per_contract = 0 then
        { approved := false, reasoning := .zeroRiskPerContract }
      else
        let kelly_size := pyInt (risk_per_trade / risk_per_contract)
        let max_contracts :=
          pyInt (portfolio.balance * MAX_POSITION_SIZE / (signal.entry_price * 100))
        let position_size := min kelly_size max_contracts
        if position_size < 1 then
          { approved := false, reasoning := .positionTooSmall }
        else
          { approved := true
            position_size := position_size
            max_loss := risk_per_contract * position_size
            reasoning := .kellyApproved }

/-- Default stats returned by get_strategy_stats when Supabase is not
configured (risk.py lines 77-83): 55 percent win rate, 100 average win,
50 average loss. These are the stats of the two worked spec examples. -/
def defaultStats : StrategyStats :=
  { strategy_name := "iv_mean_reversion"
    win_rate := 55 / 100
    avg_win := 100
    avg_loss := 50
    total_trades := 0 }

def examplePortfolio : Portfolio :=
  { balance := 10000, daily_pnl := 0, win_rate := 55 / 100, consecutive_losses := 0 }

def exampleSignalWide : Signal :=
  { symbol := "SPY", strategy := "iv_mean_reversion"
    entry_price := 10, stop_loss := 5, take_profit := 20 }

def exampleSignalNarrow : Signal :=
  { symbol := "SPY", strategy := "iv_mean_reversion"
    entry_price := 2, stop_loss := 1, take_profit := 4 }

/-- Portfolio tripping both circuit breakers: daily loss exactly -3
percent of balance and 3 consecutive losses. -/
def breakerPortfolio : Portfolio :=
  { balance := 10000, daily_pnl := -300, win_rate := 55 / 100, consecutive_losses := 3 }

/-! ## GreeksEngine (src/backend/utils/greeks.py)

Python floats are modelled by real numbers. math.erf is the Gauss error
function. -/

/-- math.erf. -/
noncomputable def erf (x : ℝ) : ℝ :=
  2 / Real.sqrt Real.pi * ∫ t in (0:ℝ)..x, Real.exp (-(t ^ 2))

/-- GreeksCalculator.norm_cdf: (1 + erf(x / sqrt 2)) / 2. -/
noncomputable def norm_cdf (x : ℝ) : ℝ := (1 + erf (x / Real.sqrt 2)) / 2

/-- GreeksCalculator.norm_pdf: exp(-x^2/2) / sqrt(2 pi). -/
noncomputable def norm_pdf (x : ℝ) : ℝ :=
  Real.exp (-0.5 * x * x) / Real.sqrt (2 * Real.pi)

/-- GreeksCalculator.calculate_d1_d2 (greeks.py lines 25-40): returns
(0, 0) when T <= 0 or sigma <= 0. -/
noncomputable def calculate_d1_d2 (S K T r sigma : ℝ) : ℝ × ℝ :=
  if T ≤ 0 ∨ sigma ≤ 0 then (0, 0)
  else
    let d1 := (Real.log (S / K) + (r + 0.5 * sigma ^ 2) * T) / (sigma * Real.sqrt T)
    (d1, d1 - sigma * Real.sqrt T)

/-- GreeksCalculator.calculate_call_delta: N(d1); no degenerate guard of
its own beyond the one inside calculate_d1_d2. -/
noncomputable def calculate_call_delta (S K T r sigma : ℝ) : ℝ :=
  norm_cdf (calculate_d1_d2 S K T r sigma).1

/-- GreeksCalculator.calculate_put_delta: N(d1) - 1. -/
noncomputable def calculate_put_delta (S K T r sigma : ℝ) : ℝ :=
  norm_cdf (calculate_d1_d2 S K T r sigma).1 - 1

/-- GreeksCalculator.calculate_gamma. -/
noncomputable def calculate_gamma (S K T r sigma : ℝ) : ℝ :=
  if T ≤ 0 ∨ sigma ≤ 0 then 0
  else norm_pdf (calculate_d1_d2 S K T r sigma).1 / (S * sigma * Real.sqrt T)

/-- GreeksCalculator.calculate_vega. -/
noncomputable def calculate_vega (S K T r sigma : ℝ) : ℝ :=
  if T ≤ 0 ∨ sigma ≤ 0 then 0
  else S * norm_pdf (calculate_d1_d2 S K T r sigma).1 * Real.sqrt T / 100

/-- GreeksCalculator.calculate_call_theta (per day). -/
noncomputable def calculate_call_theta (S K T r sigma : ℝ) : ℝ :=
  if T ≤ 0 ∨ sigma ≤ 0 then 0
  else
    let d := calculate_d1_d2 S K T r sigma
    let sqrt_T := Real.sqrt T
    (-S * norm_pdf d.1 * sigma / (2 * sqrt_T) +
      -r * K * Real.exp (-r * T) * norm_cdf d.2) / 365

/-- GreeksCalculator.calculate_put_theta (per day). -/
noncomputable def calculate_put_theta (S K T r sigma : ℝ) : ℝ :=
  if T ≤ 0 ∨ sigma ≤ 0 then 0
  else
    let d := calculate_d1_d2 S K T r sigma
    let sqrt_T := Real.sqrt T
    (-S * norm_pdf d.1 * sigma / (2 * sqrt_T) +
      r * K * Real.exp (-r * T) * norm_cdf (-d.2)) / 365

/-! ## Strings, dates and OCC option symbols

Python strings are modelled as lists of characters. Decimal digit
formatting (f-strings with :02d / :08d) and int()/Decimal() parsing of
digit strings are modelled explicitly. -/

/-- Decimal digits of n, most significant first (empty for 0), with an
explicit fuel argument (n itself is always enough fuel). -/
def natCharsAux : ℕ → ℕ → List Char
  | 0, _ => []
  | _ + 1, 0 => []
  | fuel + 1, n + 1 =>
    natCharsAux fuel ((n + 1) / 10) ++ [Char.ofNat (48 + (n + 1) % 10)]

/-- Decimal digit characters of n, most significant first. -/
def natChars (n : ℕ) : List Char := natCharsAux n n

/-- Left-pad with ASCII zeros to width w (f-string {:0wd} for
non-negative values). -/
def pad (w : ℕ) (s : List Char) : List Char :=
  List.replicate (w - s.length) '0' ++ s

/-- Horner accumulator for reading a decimal digit string. -/
def parseNatAcc : ℕ → List Char → ℕ
  | acc, [] => acc
  | acc, c :: rest => parseNatAcc (10 * acc + (c.toNat - 48)) rest

/-- Python int() / Decimal() on a string: fails (raises) on an empty or
non-digit string, otherwise reads the decimal number. -/
def parseNat? (cs : List Char) : Option ℕ :=
  if cs.isEmpty || !cs.all (fun c => c.isDigit) then none
  else some (parseNatAcc 0 cs)

/-- A calendar date (the fields of datetime used by the engine). -/
structure Date where
  year : ℕ
  month : ℕ
  day : ℕ
  deriving DecidableEq

def isLeapYear (y : ℕ) : Bool :=
  (y % 4 == 0 && y % 100 != 0) || y % 400 == 0

def daysInMonth (y m : ℕ) : ℕ :=
  if m = 2 then (if isLeapYear y then 29 else 28)
  else if m = 4 ∨ m = 6 ∨ m = 9 ∨ m = 11 then 30
  else 31

/-- The validity check performed by the datetime(year, month, day)
constructor (it raises ValueError on an invalid date). -/
def datetimeValid (y m d : ℕ) : Bool :=
  decide (1 ≤ m) && decide (m ≤ 12) && decide (1 ≤ d) &&
    decide (d ≤ daysInMonth y m)

/-- expiration.strftime("%y%m%d"). -/
def fmtExpiration (d : Date) : List Char :=
  pad 2 (natChars (d.year % 100)) ++ pad 2 (natChars d.month) ++
    pad 2 (natChars d.day)

inductive Side where
  | buy
  | sell
  deriving DecidableEq

inductive OptType where
  | call
  | put
  deriving DecidableEq

def optTypeChar : OptType → Char
  | .call => 'C'
  | .put => 'P'

/-- models.strategies.OptionLeg: fields used by create_multi_leg_order. -/
structure OptionLeg where
  symbol : List Char
  side : Side
  quantity : ℤ
  option_type : OptType
  strike : ℚ
  expiration : Date
  limit_price : Option ℚ := none
  deriving DecidableEq

/-- models.strategies.MultiLegOrder. -/
structure MultiLegOrder where
  strategy_type : String
  legs : List OptionLeg
  net_credit : Option ℚ := none
  net_debit : Option ℚ := none
  max_profit : Option ℚ := none
  max_loss : Option ℚ := none
  deriving DecidableEq

/-- models.strategies.IronCondorSetup: fields used by
create_multi_leg_order. -/
structure IronCondorSetup where
  underlying_symbol : List Char
  short_call_strike : ℚ
  long_call_strike : ℚ
  short_put_strike : ℚ
  long_put_strike : ℚ
  quantity : ℤ
  call_spread_credit : ℚ
  put_spread_credit : ℚ
  total_credit : ℚ
  max_profit : ℚ
  max_loss_per_side : ℚ
  expiration : Date
  deriving DecidableEq

/-- format_strike inside create_multi_leg_order: f"{int(strike * 1000):08d}"
(for a negative value Python prints the sign inside the width). -/
def format_strike (strike : ℚ) : List Char :=
  let n := pyInt (strike * 1000)
  if n < 0 then '-' :: pad 7 (natChars n.natAbs) else pad 8 (natChars n.toNat)

/-- IronCondorStrategy.create_multi_leg_order (iron_condor.py lines
285-358): four legs — sell short call, buy long call, sell short put, buy
long put — with OCC symbols and limit prices credit/2 on the sold legs and
credit/4 on the bought legs. -/
def create_multi_leg_order (setup : IronCondorSetup) : MultiLegOrder :=
  let expiration_str := fmtExpiration setup.expiration
  let symbol_base := setup.underlying_symbol
  let legs : List OptionLeg :=
    [ { symbol := symbol_base ++ expiration_str ++
          'C' :: format_strike setup.short_call_strike
        side := .sell
        quantity := setup.quantity
        option_type := .call
        strike := setup.short_call_strike
        expiration := setup.expiration
        limit_price := some (setup.call_spread_credit / 2) },
      { symbol := symbol_base ++ expiration_str ++
          'C' :: format_strike setup.long_call_strike
        side := .buy
        quantity := setup.quantity
        option_type := .call
        strike := setup.long_call_strike
        expiration := setup.expiration
        limit_price := some (setup.call_spread_credit / 4) },
      { symbol := symbol_base ++ expiration_str ++
          'P' :: format_strike setup.short_put_strike
        side := .sell
        quantity := setup.quantity
        option_type := .put
        strike := setup.short_put_strike
        expiration := setup.expiration
        limit_price := some (setup.put_spread_credit / 2) },
      { symbol := symbol_base ++ expiration_str ++
          'P' :: format_strike setup.long_put_strike
        side := .buy
        quantity := setup.quantity
        option_type := .put
        strike := setup.long_put_strike
        expiration := setup.expiration
        limit_price := some (setup.put_spread_credit / 4) } ]
  { strategy_type := "iron_condor"
    legs := legs
    net_credit := some setup.total_credit
    max_profit := some setup.max_profit
    max_loss := some (setup.max_loss_per_side * 2) }

/-- The quantity named in claim C2: the sum of the sell legs' limit prices
minus the sum of the buy legs' limit prices. -/
def signedNetCredit (o : MultiLegOrder) : ℚ :=
  (o.legs.map fun l => match l.side with
    | .sell => l.limit_price.getD 0
    | .buy => 0).sum -
  (o.legs.map fun l => match l.side with
    | .buy => l.limit_price.getD 0
    | .sell => 0).sum

/-- The dict returned by parse_option_symbol on success. -/
structure ParsedOption where
  underlying : List Char
  expiration : Date
  option_type : Char
  strike : ℚ
  deriving DecidableEq

/-- parse_option_symbol (execution.py lines 420-453). Every Python
exception path — no digit in the symbol, index out of range, a
non-numeric int()/Decimal() argument, an invalid datetime — is caught and
yields the empty dict, modelled as none. The underlying is the prefix up
to the first digit (symbol.index of the first digit character). -/
def parse_option_symbol (s : List Char) : Option ParsedOption :=
  match s.find? (fun c => c.isDigit) with
  | none => none
  | some c0 =>
    let idx := s.indexOf c0
    let underlying := s.take idx
    let expiration_str := (s.drop idx).take 6
    match s.drop (idx + 6) with
    | [] => none
    | option_type :: strike_str =>
      match parseNat? (expiration_str.take 2),
            parseNat? ((expiration_str.drop 2).take 2),
            parseNat? ((expiration_str.drop 4).take 2),
            parseNat? strike_str with
      | some yy, some mm, some dd, some k =>
        if datetimeValid (2000 + yy) mm dd then
          some { underlying := underlying
                 expiration := ⟨2000 + yy, mm, dd⟩
                 option_type := option_type
                 strike := (k : ℚ) / 1000 }
        else none
      | _, _, _, _ => none

/-- A concrete iron-condor setup (SPY 2025-12-17, 600/605 call spread,
580/575 put spread, 0.50 + 0.50 = 1.00 total credit). -/
def exampleSetup : IronCondorSetup :=
  { underlying_symbol := "SPY".toList
    short_call_strike := 600
    long_call_strike := 605
    short_put_strike := 580
    long_put_strike := 575
    quantity := 1
    call_spread_credit := 1 / 2
    put_spread_credit := 1 / 2
    total_credit := 1
    max_profit := 1
    max_loss_per_side := 4
    expiration := ⟨2025, 12, 17⟩ }

/-- The first leg (sell short call) produced for exampleSetup. -/
def exampleShortCallLeg : OptionLeg :=
  { symbol := "SPY".toList ++ fmtExpiration ⟨2025, 12, 17⟩ ++
      'C' :: format_strike 600
    side := .sell
    quantity := 1
    option_type := .call
    strike := 600
    expiration := ⟨2025, 12, 17⟩
    limit_price := some (1 / 4) }

/-! ## PositionMonitor (src/backend/monitoring/position_monitor.py)

The evaluators read the ambient wall clock (datetime.now) and a quote
source (get_latest_tick); both are made explicit in an Env record.
Python float arithmetic on prices is modelled by rationals. -/

/-- A wall-clock time of day. Python time objects satisfy
minute, second < 60, on which lexicographic comparison coincides with
comparison of the total seconds used here. -/
structure Time where
  hour : ℕ
  minute : ℕ
  second : ℕ
  deriving DecidableEq

def Time.toSeconds (t : Time) : ℕ := t.hour * 3600 + t.minute * 60 + t.second

/-- Python time comparison a <= b. -/
def timeLe (a b : Time) : Bool := Nat.ble a.toSeconds b.toSeconds

/-- A wall-clock datetime (datetime.now). -/
structure DateTime where
  date : Date
  time : Time
  deriving DecidableEq

/-- Rata-die day number of a Gregorian date (standard days-from-civil
algorithm); only differences of values are used. All intermediate
divisions act on non-negative operands for the years in play. -/
def rataDie (d : Date) : ℤ :=
  let y : ℤ := if d.month ≤ 2 then (d.year : ℤ) - 1 else (d.year : ℤ)
  let m : ℤ := d.month
  let era : ℤ := (if 0 ≤ y then y else y - 399) / 400
  let yoe : ℤ := y - era * 400
  let doy : ℤ := (153 * (if 2 < m then m - 3 else m + 9) + 2) / 5 + (d.day : ℤ) - 1
  let doe : ℤ := yoe * 365 + yoe / 4 - yoe / 100 + doy
  era * 146097 + doe - 719468

/-- Python timedelta days of (expiration - now) for a midnight expiration
datetime: the days attribute floors, so a nonzero time of day on now
lowers the day difference by one. -/
def tdDays (expiration : Date) (now : DateTime) : ℤ :=
  if now.time.toSeconds = 0 then rataDie expiration - rataDie now.date
  else rataDie expiration - rataDie now.date - 1

/-- The fields of an option tick used by the monitor (bid/ask mid). -/
structure Tick where
  bid : ℚ
  ask : ℚ
  deriving DecidableEq

/-- The ambient effects read by the exit evaluators: the wall clock and
the quote lookup (get_latest_tick; none models NotFound/unavailable). -/
structure Env where
  now : DateTime
  tick : List Char → Option Tick

inductive PositionType where
  | long
  | short
  | spread
  | ironCondor
  | momentumScalping
  | openingRangeBreakout
  deriving DecidableEq

inductive PositionStatus where
  | opened
  | closed
  deriving DecidableEq

/-- One stored leg dict of a multi-leg position (keys used by the
monitor: symbol, side, quantity, option_type, strike). -/
structure LegData where
  symbol : List Char
  side : Side
  quantity : ℤ
  option_type : OptType
  strike : ℚ
  deriving DecidableEq

/-- The signal_data dict stored on opening-range-breakout positions. -/
structure SignalData where
  range_high : Option ℚ := none
  range_low : Option ℚ := none
  direction : Option (List Char) := none
  target_price : Option ℚ := none
  deriving DecidableEq

/-- models.trading.Position: fields read by the exit evaluators. -/
structure Position where
  id : ℕ
  symbol : List Char
  strategy : List Char
  position_type : PositionType
  quantity : ℤ
  entry_price : ℚ
  current_price : Option ℚ := none
  legs : List LegData := []
  signal_data : Option SignalData := none
  deriving DecidableEq

/-- One tag per distinct return site of the exit evaluators (the Python
reason strings are f-strings keyed by the same sites). -/
inductive ExitReason where
  | momentumForceClose1130
  | momentumFinalForceClose1550
  | momentumProfitTarget50
  | momentumStopLoss50
  | condorProfitTarget50
  | condorStopLoss2x
  | condorForceClose1550
  | condorCallBreach
  | condorPutBreach
  | orbRangeInvalidation
  | orbProfitTarget50
  | orbStopLoss40
  | orbTargetReached
  | orbForceClose1500
  | profitTarget50
  | stopLoss75
  | dte21
  | earningsBlackout
  deriving DecidableEq

/-- Python truthiness of an optional Decimal/float (None and 0 are falsy). -/
def pyTruthyQ : Option ℚ → Bool
  | none => false
  | some q => decide (q ≠ 0)

def strategyLower (s : List Char) : List Char := s.map Char.toLower

def startsWithB : List Char → List Char → Bool
  | [], _ => true
  | _ :: _, [] => false
  | a :: as, b :: bs => a == b && startsWithB as bs

/-- Python substring containment (needle in haystack). -/
def hasSubstr : List Char → List Char → Bool
  | needle, [] => needle.isEmpty
  | needle, c :: rest => startsWithB needle (c :: rest) || hasSubstr needle rest

def time1130 : Time := ⟨11, 30, 0⟩
def time1500 : Time := ⟨15, 0, 0⟩
def time1550 : Time := ⟨15, 50, 0⟩

/-- Momentum-scalping branch of check_strategy_specific_exit
(position_monitor.py lines 40-66). The 11:30 check runs first; the
15:50 check sits after it in the source and is therefore unreachable.
The source computes pnl_pct twice under the same truthiness guard
(profit block, then stop block); the two guarded blocks are merged. -/
def momentum_exit (position : Position) (now_et : Time) : Option ExitReason :=
  if timeLe time1130 now_et then some .momentumForceClose1130
  else if timeLe time1550 now_et then some .momentumFinalForceClose1550
  else
    match position.current_price with
    | some cp =>
      if cp ≠ 0 ∧ position.entry_price ≠ 0 then
        let pnl_pct := (cp - position.entry_price) / position.entry_price
        if pnl_pct ≥ 1 / 2 then some .momentumProfitTarget50
        else if pnl_pct ≤ -(1 / 2) then some .momentumStopLoss50
        else none
      else none
    | none => none

/-- The per-leg pricing loop of the iron-condor branch (lines 82-101):
sell legs contribute -(mid * quantity * 100), buy legs +(mid * quantity
* 100); the first leg without a quote aborts with none. -/
def legValues : (List Char → Option Tick) → List LegData → Option (List ℚ)
  | _, [] => some []
  | tick, leg :: rest =>
    match tick leg.symbol with
    | none => none
    | some t =>
      let current_price := (t.bid + t.ask) / 2
      let leg_value : ℚ :=
        match leg.side with
        | .sell => -(current_price * leg.quantity * 100)
        | .buy => current_price * leg.quantity * 100
      match legValues tick rest with
      | none => none
      | some vs => some (leg_value :: vs)

/-- The short-strike scan (lines 150-155): the loop keeps the last sold
leg of the requested type. -/
def lastShortStrike (legs : List LegData) (ot : OptType) : Option ℚ :=
  legs.foldl
    (fun acc leg =>
      if leg.side = .sell ∧ leg.option_type = ot then some leg.strike else acc)
    none

/-- Underlying extraction idiom
symbol[:symbol.index(next(filter(str.isdigit, symbol)))]; none models the
StopIteration raised when the symbol has no digit (caught by the
dispatcher's try/except). -/
def extractUnderlying (symbol : List Char) : Option (List Char) :=
  match symbol.find? (fun c => c.isDigit) with
  | none => none
  | some c0 => some (symbol.take (symbol.indexOf c0))

/-- Iron-condor branch of check_strategy_specific_exit (lines 68-168).
A zero underlying mid price would raise ZeroDivisionError in the breach
arithmetic when a short strike is truthy (caught by the dispatcher) and
otherwise falls through to None; both paths yield none. -/
def condor_exit (position : Position) (env : Env) : Option ExitReason :=
  if position.legs.length < 4 then none
  else
    match legValues env.tick position.legs with
    | none => none
    | some leg_values =>
      let current_position_value := |leg_values.sum|
      let entry_credit := position.entry_price * position.quantity * 100
      let pnl := entry_credit - current_position_value
      let pnl_pct := if 0 < entry_credit then pnl / entry_credit else 0
      if pnl_pct ≥ 1 / 2 then some .condorProfitTarget50
      else if pnl ≤ -(entry_credit * 2) then some .condorStopLoss2x
      else if timeLe time1550 env.now.time then some .condorForceClose1550
      else
        match position.legs.head? with
        | none => none
        | some first_leg =>
          match extractUnderlying first_leg.symbol with
          | none => none
          | some underlying_symbol =>
            match env.tick underlying_symbol with
            | none => none
            | some ut =>
              let underlying_price := (ut.bid + ut.ask) / 2
              if underlying_price = 0 then none
              else
                let short_call_strike := lastShortStrike position.legs .call
                let short_put_strike := lastShortStrike position.legs .put
                if pyTruthyQ short_call_strike &&
                    decide ((short_call_strike.getD 0 - underlying_price) /
                      underlying_price ≤ 2 / 100) then
                  some .condorCallBreach
                else if pyTruthyQ short_put_strike &&
                    decide ((underlying_price - short_put_strike.getD 0) /
                      underlying_price ≤ 2 / 100) then
                  some .condorPutBreach
                else none

/-- Opening-range-breakout branch of check_strategy_specific_exit
(lines 170-239). -/
def orb_exit (position : Position) (env : Env) : Option ExitReason :=
  match extractUnderlying position.symbol with
  | none => none
  | some underlying_symbol =>
    match env.tick underlying_symbol with
    | none => none
    | some ut =>
      let underlying_price := (ut.bid + ut.ask) / 2
      let inval : Option ExitReason :=
        match position.signal_data with
        | none => none
        | some sd =>
          if pyTruthyQ sd.range_high && pyTruthyQ sd.range_low then
            if sd.direction = some "BULLISH".toList then
              if underlying_price ≤ sd.range_high.getD 0 then
                some .orbRangeInvalidation
              else none
            else if sd.direction = some "BEARISH".toList then
              if underlying_price ≥ sd.range_low.getD 0 then
                some .orbRangeInvalidation
              else none
            else none
          else none
      match inval with
      | some r => some r
      | none =>
        let pnlExit : Option ExitReason :=
          match position.current_price with
          | some cp =>
            if cp ≠ 0 ∧ position.entry_price ≠ 0 then
              let pnl_pct := (cp - position.entry_price) / position.entry_price
              if pnl_pct ≥ 1 / 2 then some .orbProfitTarget50
              else if pnl_pct ≤ -(2 / 5) then some .orbStopLoss40
              else none
            else none
          | none => none
        match pnlExit with
        | some r => some r
        | none =>
          let targetExit : Option ExitReason :=
            match position.signal_data with
            | none => none
            | some sd =>
              if pyTruthyQ sd.target_price then
                if sd.direction = some "BULLISH".toList ∧
                    underlying_price ≥ sd.target_price.getD 0 then
                  some .orbTargetReached
                else if sd.direction = some "BEARISH".toList ∧
                    underlying_price ≤ sd.target_price.getD 0 then
                  some .orbTargetReached
                else none
              else none
          match targetExit with
          | some r => some r
          | none =>
            if timeLe time1500 env.now.time then some .orbForceClose1500
            else none

/-- check_exit_conditions (execution.py lines 524-576): the default
single-leg exit check. A zero entry price raises ZeroDivisionError,
caught by the function's own try/except into None. is_earnings_blackout
is a stub always returning False. -/
def check_exit_conditions (position : Position) (env : Env) : Option ExitReason :=
  match env.tick position.symbol with
  | none => none
  | some tk =>
    let current_price := (tk.bid + tk.ask) / 2
    if position.entry_price = 0 then none
    else
      let pnl_pct :=
        if position.position_type = .long then
          (current_price - position.entry_price) / position.entry_price
        else
          (position.entry_price - current_price) / position.entry_price
      if pnl_pct ≥ 1 / 2 then some .profitTarget50
      else if pnl_pct ≤ -(3 / 4) then some .stopLoss75
      else
        let dteExit : Option ExitReason :=
          match parse_option_symbol position.symbol with
          | some parsed =>
            if tdDays parsed.expiration env.now ≤ 21 then some .dte21 else none
          | none => none
        match dteExit with
        | some r => some r
        | none => none

/-- check_strategy_specific_exit (position_monitor.py lines 24-251): the
string-keyed strategy dispatch. -/
def check_strategy_specific_exit (position : Position) (env : Env) :
    Option ExitReason :=
  let lower := strategyLower position.strategy
  if lower = "momentum_scalping".toList ∨ hasSubstr "momentum".toList lower then
    momentum_exit position env.now.time
  else if lower = "iron_condor".toList ∨ hasSubstr "condor".toList lower then
    condor_exit position env
  else if lower = "opening_range_breakout".toList ∨ hasSubstr "orb".toList lower then
    orb_exit position env
  else
    check_exit_conditions position env

/-- Result of close_position. -/
structure CloseResult where
  success : Bool
  deriving DecidableEq

/-- Outcome of one iteration of the per-position loop in
monitor_positions (lines 282-319). -/
inductive CycleOutcome where
  | noExit
  | closed (reason : ExitReason)
  | closeFailed (reason : ExitReason)
  | errorCaught (e : String)
  deriving DecidableEq

/-- The body of the per-position loop of monitor_positions, including its
try/except: evaluation and close are fallible external steps; a raised
exception is caught at this per-position boundary. -/
def processPosition (eval : Position → Except String (Option ExitReason))
    (close : Position → Except String CloseResult)
    (position : Position) : CycleOutcome :=
  match eval position with
  | .error e => .errorCaught e
  | .ok none => .noExit
  | .ok (some reason) =>
    match close position with
    | .error e => .errorCaught e
    | .ok result =>
      if result.success then .closed reason else .closeFailed reason

/-- The per-cycle loop of monitor_positions over the fetched open
positions, processed sequentially. -/
def monitorCycle (eval : Position → Except String (Option ExitReason))
    (close : Position → Except String CloseResult) :
    List Position → List CycleOutcome
  | [] => []
  | p :: rest => processPosition eval close p :: monitorCycle eval close rest

/-- Status of a position after its loop iteration: only a successful
close transitions it to closed; every other outcome leaves it open. -/
def statusAfter (eval : Position → Except String (Option ExitReason))
    (close : Position → Except String CloseResult)
    (position : Position) : PositionStatus :=
  match processPosition eval close position with
  | .closed _ => .closed
  | _ => .opened

/-- A concrete momentum-scalping position. -/
def momentumPos : Position :=
  { id := 1
    symbol := "SPY".toList
    strategy := "momentum_scalping".toList
    position_type := .momentumScalping
    quantity := 1
    entry_price := 100
    current_price := none }

/-- A concrete single-leg position for the default branch. -/
def otherPos : Position :=
  { id := 2
    symbol := "QQQ".toList
    strategy := "iv_mean_reversion".toList
    position_type := .long
    quantity := 1
    entry_price := 100
    current_price := none }

/-- A concrete iron-condor position with 4 legs. -/
def condorPos : Position :=
  { id := 3
    symbol := "SPY".toList
    strategy := "iron_condor".toList
    position_type := .ironCondor
    quantity := 1
    entry_price := 1
    current_price := none
    legs :=
      [ ⟨"SPY251217C00600000".toList, .sell, 1, .call, 600⟩,
        ⟨"SPY251217C00605000".toList, .buy, 1, .call, 605⟩,
        ⟨"SPY251217P00580000".toList, .sell, 1, .put, 580⟩,
        ⟨"SPY251217P00575000".toList, .buy, 1, .put, 575⟩ ] }

/-- An environment at a given clock time with no quotes available. -/
def envAt (t : Time) : Env :=
  { now := { date := ⟨2025, 12, 17⟩, time := t }, tick := fun _ => none }

/-- External evaluation step that raises on position id 1. -/
def failingEval : Position → Except String (Option ExitReason) :=
  fun q => if q.id = 1 then .error "tick fetch failed" else .ok none

/-- External close step that always succeeds. -/
def alwaysClose : Position → Except String CloseResult :=
  fun _ => .ok ⟨true⟩

/-! ## Helper lemmas -/

theorem erf_zero : erf 0 = 0 := by
  simp [erf]

theorem norm_cdf_zero : norm_cdf 0 = 1 / 2 := by
  rw [norm_cdf]
  rw [show (0:ℝ) / Real.sqrt 2 = 0 from zero_div _, erf_zero]
  norm_num

theorem pyInt_le_self {q : ℚ} (h : 0 ≤ q) : (pyInt q : ℚ) ≤ q := by
  rw [pyInt, if_pos h]
  exact Int.floor_le q

theorem char_ofNat_digit_toNat {d : ℕ} (h : d < 10) :
    (Char.ofNat (48 + d)).toNat = 48 + d := by
  interval_cases d <;> decide

theorem char_ofNat_digit_isDigit {d : ℕ} (h : d < 10) :
    (Char.ofNat (48 + d)).isDigit = true := by
  interval_cases d <;> decide

theorem natCharsAux_fuel : ∀ (f₁ : ℕ), ∀ (f₂ n : ℕ), n ≤ f₁ → n ≤ f₂ →
    natCharsAux f₁ n = natCharsAux f₂ n := by
  intro f₁
  induction f₁ with
  | zero =>
    intro f₂ n h1 h2
    interval_cases n
    cases f₂ <;> rfl
  | succ f ih =>
    intro f₂ n h1 h2
    cases n with
    | zero => cases f₂ <;> rfl
    | succ m =>
      cases f₂ with
      | zero => omega
      | succ g =>
        have hdiv : (m + 1) / 10 < m + 1 := Nat.div_lt_self (Nat.succ_pos m) (by norm_num)
        simp only [natCharsAux]
        rw [ih g ((m + 1) / 10) (by omega) (by omega)]

theorem parseNatAcc_nil (a : ℕ) : parseNatAcc a [] = a := rfl

theorem parseNatAcc_cons (a : ℕ) (c : Char) (l : List Char) :
    parseNatAcc a (c :: l) = parseNatAcc (10 * a + (c.toNat - 48)) l := rfl

theorem parseNatAcc_append (a : ℕ) (l₁ l₂ : List Char) :
    parseNatAcc a (l₁ ++ l₂) = parseNatAcc (parseNatAcc a l₁) l₂ := by
  induction l₁ generalizing a with
  | nil => rw [List.nil_append, parseNatAcc_nil]
  | cons c l ih => rw [List.cons_append, parseNatAcc_cons, parseNatAcc_cons, ih]

theorem parseNatAcc_natCharsAux : ∀ (f : ℕ), ∀ (n a : ℕ), n ≤ f →
    parseNatAcc a (natCharsAux f n) = a * 10 ^ (natCharsAux f n).length + n := by
  intro f
  induction f with
  | zero =>
    intro n a h
    interval_cases n
    simp [natCharsAux, parseNatAcc_nil]
  | succ f ih =>
    intro n a h
    cases n with
    | zero => simp [natCharsAux, parseNatAcc_nil]
    | succ m =>
      have hdiv : (m + 1) / 10 < m + 1 := Nat.div_lt_self (Nat.succ_pos m) (by norm_num)
      have hm : (m + 1) % 10 < 10 := Nat.mod_lt _ (by norm_num)
      simp only [natCharsAux]
      rw [parseNatAcc_append, ih ((m + 1) / 10) a (by omega)]
      simp only [parseNatAcc_cons, parseNatAcc_nil, char_ofNat_digit_toNat hm,
        List.length_append, List.length_singleton]
      have h48 : 48 + (m + 1) % 10 - 48 = (m + 1) % 10 := by omega
      rw [h48, pow_succ]
      have hmul : a * (10 ^ (natCharsAux f ((m + 1) / 10)).length * 10) =
          a * 10 ^ (natCharsAux f ((m + 1) / 10)).length * 10 := by ring
      rw [hmul]
      generalize a * 10 ^ (natCharsAux f ((m + 1) / 10)).length = b
      omega

theorem natCharsAux_digits : ∀ (f n : ℕ), ∀ c ∈ natCharsAux f n, c.isDigit = true := by
  intro f
  induction f with
  | zero => intro n c hc; simp [natCharsAux] at hc
  | succ f ih =>
    intro n c hc
    cases n with
    | zero => simp [natCharsAux] at hc
    | succ m =>
      simp only [natCharsAux, List.mem_append, List.mem_singleton] at hc
      rcases hc with h | h
      · exact ih _ c h
      · rw [h]; exact char_ofNat_digit_isDigit (Nat.mod_lt _ (by norm_num))

theorem natCharsAux_length : ∀ (f n k : ℕ), n ≤ f → n < 10 ^ k →
    (natCharsAux f n).length ≤ k := by
  intro f
  induction f with
  | zero =>
    intro n k h1 h2
    interval_cases n
    simp [natCharsAux]
  | succ f ih =>
    intro n k h1 h2
    cases n with
    | zero => simp [natCharsAux]
    | succ m =>
      cases k with
      | zero => simp at h2
      | succ j =>
        have hdiv : (m + 1) / 10 < m + 1 := Nat.div_lt_self (Nat.succ_pos m) (by norm_num)
        have hlt : (m + 1) / 10 < 10 ^ j := by
          rw [Nat.div_lt_iff_lt_mul (by norm_num : (0:ℕ) < 10)]
          calc m + 1 < 10 ^ (j + 1) := h2
            _ = 10 ^ j * 10 := by ring
        have := ih ((m + 1) / 10) j (by omega) hlt
        simp only [natCharsAux, List.length_append, List.length_singleton]
        omega

theorem parseNatAcc_natChars (a n : ℕ) :
    parseNatAcc a (natChars n) = a * 10 ^ (natChars n).length + n :=
  parseNatAcc_natCharsAux n n a le_rfl

theorem natChars_digits (n : ℕ) : ∀ c ∈ natChars n, c.isDigit = true :=
  natCharsAux_digits n n

theorem natChars_length_le {n k : ℕ} (h : n < 10 ^ k) : (natChars n).length ≤ k :=
  natCharsAux_length n n k le_rfl h

theorem parseNatAcc_replicate_zero (a m : ℕ) :
    parseNatAcc a (List.replicate m '0') = a * 10 ^ m := by
  induction m generalizing a with
  | zero => simp [parseNatAcc_nil]
  | succ m ih =>
    rw [List.replicate_succ, parseNatAcc_cons, ih]
    have h0 : ('0' : Char).toNat - 48 = 0 := by decide
    rw [h0, pow_succ]
    ring

theorem pad_natChars_digits (w n : ℕ) : ∀ c ∈ pad w (natChars n), c.isDigit = true := by
  intro c hc
  rw [pad, List.mem_append] at hc
  rcases hc with h | h
  · rw [List.eq_of_mem_replicate h]; decide
  · exact natChars_digits n c h

theorem pad_length {w : ℕ} {s : List Char} (h : s.length ≤ w) :
    (pad w s).length = w := by
  simp [pad]
  omega

theorem parseNat?_pad_natChars (w n : ℕ) (hw : 1 ≤ w) :
    parseNat? (pad w (natChars n)) = some n := by
  have hlen : 0 < (pad w (natChars n)).length := by
    simp only [pad, List.length_append, List.length_replicate]
    omega
  have hne : (pad w (natChars n)).isEmpty = false := by
    cases h : pad w (natChars n) with
    | nil => rw [h] at hlen; simp at hlen
    | cons a l => rfl
  have hall : (pad w (natChars n)).all (fun c => c.isDigit) = true :=
    List.all_eq_true.mpr (fun c hc => pad_natChars_digits w n c hc)
  rw [parseNat?, if_neg (by simp [hne, hall])]
  congr 1
  rw [pad, parseNatAcc_append, parseNatAcc_replicate_zero, zero_mul,
    parseNatAcc_natChars, zero_mul, zero_add]

theorem find?_digit_append (u : List Char) (hU : ∀ c ∈ u, c.isDigit = false)
    (c0 : Char) (h0 : c0.isDigit = true) (rest : List Char) :
    (u ++ c0 :: rest).find? (fun c => c.isDigit) = some c0 := by
  induction u with
  | nil =>
    rw [List.nil_append]
    exact List.find?_cons_of_pos _ h0
  | cons a l ih =>
    rw [List.cons_append,
      List.find?_cons_of_neg _ (by simp [hU a (by simp)])]
    exact ih (fun c hc => hU c (by simp [hc]))

theorem indexOf_append_first (u : List Char) (c0 : Char)
    (hU : ∀ c ∈ u, c.isDigit = false) (h0 : c0.isDigit = true)
    (rest : List Char) :
    (u ++ c0 :: rest).indexOf c0 = u.length := by
  induction u with
  | nil =>
    rw [List.nil_append]
    exact List.indexOf_cons_self c0 rest
  | cons a l ih =>
    have hne : a ≠ c0 := by
      intro h
      have ha : a.isDigit = false := hU a (List.mem_cons_self a l)
      rw [h, h0] at ha
      exact absurd ha (by simp)
    rw [List.cons_append, List.indexOf_cons_ne _ hne,
      ih (fun c hc => hU c (by simp [hc]))]
    rfl

theorem daysInMonth_le (y m : ℕ) : daysInMonth y m ≤ 31 := by
  rw [daysInMonth]
  split_ifs <;> norm_num

theorem datetimeValid_bounds {y m d : ℕ} (h : datetimeValid y m d = true) :
    1 ≤ m ∧ m ≤ 12 ∧ 1 ≤ d ∧ d ≤ 31 := by
  simp only [datetimeValid, Bool.and_eq_true, decide_eq_true_eq] at h
  have := daysInMonth_le y m
  omega

theorem fmtExpiration_length (d : Date) (hm : d.month ≤ 99) (hday : d.day ≤ 99) :
    (fmtExpiration d).length = 6 := by
  have h100 : d.year % 100 < 100 := Nat.mod_lt _ (by norm_num)
  rw [fmtExpiration, List.length_append, List.length_append,
    pad_length (natChars_length_le (show d.year % 100 < 10 ^ 2 by norm_num; omega)),
    pad_length (natChars_length_le (show d.month < 10 ^ 2 by norm_num; omega)),
    pad_length (natChars_length_le (show d.day < 10 ^ 2 by norm_num; omega))]

theorem fmtExpiration_digits (d : Date) :
    ∀ c ∈ fmtExpiration d, c.isDigit = true := by
  intro c hc
  rw [fmtExpiration, List.append_assoc, List.mem_append, List.mem_append] at hc
  rcases hc with h | h | h
  · exact pad_natChars_digits _ _ c h
  · exact pad_natChars_digits _ _ c h
  · exact pad_natChars_digits _ _ c h

theorem parse_mkOcc (u : List Char) (hU : ∀ c ∈ u, c.isDigit = false)
    (d : Date) (hy1 : 2000 ≤ d.year) (hy2 : d.year ≤ 2099)
    (hv : datetimeValid d.year d.month d.day = true) (t : Char) (k : ℕ) :
    parse_option_symbol (u ++ fmtExpiration d ++ t :: pad 8 (natChars k)) =
      some ⟨u, d, t, (k : ℚ) / 1000⟩ := by
  obtain ⟨h1m, hm12, h1d, hd31⟩ := datetimeValid_bounds hv
  have hlen6 : (fmtExpiration d).length = 6 :=
    fmtExpiration_length d (by omega) (by omega)
  obtain ⟨c0, e, he⟩ : ∃ c0 e, fmtExpiration d = c0 :: e := by
    cases hE : fmtExpiration d with
    | nil => rw [hE] at hlen6; simp at hlen6
    | cons x xs => exact ⟨x, xs, rfl⟩
  have hc0 : c0.isDigit = true :=
    fmtExpiration_digits d c0 (by rw [he]; exact List.mem_cons_self _ _)
  have hsplit : u ++ fmtExpiration d ++ t :: pad 8 (natChars k) =
      u ++ (c0 :: (e ++ t :: pad 8 (natChars k))) := by
    simp [he, List.append_assoc]
  have hfind : (u ++ fmtExpiration d ++ t :: pad 8 (natChars k)).find?
      (fun c => c.isDigit) = some c0 := by
    rw [hsplit]
    exact find?_digit_append u hU c0 hc0 _
  have hidx : (u ++ fmtExpiration d ++ t :: pad 8 (natChars k)).indexOf c0 =
      u.length := by
    rw [hsplit]
    exact indexOf_append_first u c0 hU hc0 _
  have htake : (u ++ fmtExpiration d ++ t :: pad 8 (natChars k)).take u.length
      = u := by
    rw [List.append_assoc]
    exact List.take_left u _
  have hdrop : (u ++ fmtExpiration d ++ t :: pad 8 (natChars k)).drop u.length
      = fmtExpiration d ++ t :: pad 8 (natChars k) := by
    rw [List.append_assoc]
    exact List.drop_left u _
  have hexp : (fmtExpiration d ++ t :: pad 8 (natChars k)).take 6 =
      fmtExpiration d := List.take_left' hlen6
  have hdrop6 : (u ++ fmtExpiration d ++ t :: pad 8 (natChars k)).drop
      (u.length + 6) = t :: pad 8 (natChars k) :=
    List.drop_left' (by rw [List.length_append, hlen6])
  have hmy : d.year % 100 < 10 ^ 2 := by norm_num; omega
  have hmm : d.month < 10 ^ 2 := by norm_num; omega
  have hmd : d.day < 10 ^ 2 := by norm_num; omega
  have hlenY : (pad 2 (natChars (d.year % 100))).length = 2 :=
    pad_length (natChars_length_le hmy)
  have hlenM : (pad 2 (natChars d.month)).length = 2 :=
    pad_length (natChars_length_le hmm)
  have hlenD : (pad 2 (natChars d.day)).length = 2 :=
    pad_length (natChars_length_le hmd)
  have hY : (fmtExpiration d).take 2 = pad 2 (natChars (d.year % 100)) := by
    rw [fmtExpiration, List.append_assoc]
    exact List.take_left' hlenY
  have hM : ((fmtExpiration d).drop 2).take 2 = pad 2 (natChars d.month) := by
    rw [fmtExpiration, List.append_assoc, List.drop_left' hlenY]
    exact List.take_left' hlenM
  have hD : ((fmtExpiration d).drop 4).take 2 = pad 2 (natChars d.day) := by
    rw [fmtExpiration,
      List.drop_left' (by rw [List.length_append, hlenY, hlenM])]
    exact List.take_of_length_le (le_of_eq hlenD)
  unfold parse_option_symbol
  rw [hfind]
  dsimp only
  rw [hidx, htake, hdrop, hdrop6, hexp, hY, hM, hD,
    parseNat?_pad_natChars 2 (d.year % 100) (by norm_num),
    parseNat?_pad_natChars 2 d.month (by norm_num),
    parseNat?_pad_natChars 2 d.day (by norm_num)]
  dsimp only
  rw [parseNat?_pad_natChars 8 k (by norm_num)]
  dsimp only
  rw [show 2000 + d.year % 100 = d.year by omega, if_pos hv]

theorem format_strike_nat (k : ℕ) :
    format_strike ((k : ℚ) / 1000) = pad 8 (natChars k) := by
  rw [format_strike]
  rw [show (k : ℚ) / 1000 * 1000 = (k : ℚ) by field_simp]
  rw [show pyInt (k : ℚ) = (k : ℤ) by
    rw [pyInt, if_pos (by positivity)]; exact Int.floor_natCast k]
  rw [if_neg (by omega : ¬ (k : ℤ) < 0)]
  congr 1

theorem timeLe_1130_of_1550 {t : Time} (h : timeLe time1550 t = true) :
    timeLe time1130 t = true := by
  simp only [timeLe, Nat.ble_eq, time1130, time1550, Time.toSeconds] at h ⊢
  omega

theorem legValues_none_of_missing (tick : List Char → Option Tick) :
    ∀ legs : List LegData, (∃ leg ∈ legs, tick leg.symbol = none) →
      legValues tick legs = none := by
  intro legs
  induction legs with
  | nil =>
    rintro ⟨leg, hmem, _⟩
    simp at hmem
  | cons l rest ih =>
    rintro ⟨leg, hmem, hnone⟩
    cases hc : tick l.symbol with
    | none => simp [legValues, hc]
    | some t =>
      rcases List.mem_cons.mp hmem with h | hmem'
      · rw [h, hc] at hnone
        exact Option.noConfusion hnone
      · simp [legValues, hc, ih ⟨leg, hmem', hnone⟩]

theorem monitorCycle_append (eval : Position → Except String (Option ExitReason))
    (close : Position → Except String CloseResult) (l₁ l₂ : List Position) :
    monitorCycle eval close (l₁ ++ l₂) =
      monitorCycle eval close l₁ ++ monitorCycle eval close l₂ := by
  induction l₁ with
  | nil => rfl
  | cons p rest ih => simp [monitorCycle, ih]

/-! ## Claims about the RiskManager -/

/-- Claim C4: with positive balance, a daily loss of 3 percent or worse is
rejected with the daily-loss reason regardless of the signal and stats (the
check runs first and short-circuits), and 3 or more consecutive losses are
rejected regardless of the signal, stats and daily P&L. -/
theorem approve_trade_circuit_breakers (signal : Signal) (stats : StrategyStats)
    (portfolio : Portfolio) (hbal : 0 < portfolio.balance) :
    (portfolio.daily_pnl / portfolio.balance ≤ -(3 / 100) →
      (approve_trade signal portfolio stats).approved = false ∧
      (approve_trade signal portfolio stats).reasoning = .dailyLossLimit) ∧
    (3 ≤ portfolio.consecutive_losses →
      (approve_trade signal portfolio stats).approved = false) := by
  constructor
  · intro h
    unfold approve_trade
    rw [if_pos (show portfolio.daily_pnl / portfolio.balance ≤ DAILY_LOSS_LIMIT by
      rw [DAILY_LOSS_LIMIT]; linarith)]
    exact ⟨rfl, rfl⟩
  · intro h
    unfold approve_trade
    by_cases hd : portfolio.daily_pnl / portfolio.balance ≤ DAILY_LOSS_LIMIT
    · rw [if_pos hd]
    · rw [if_neg hd,
        if_pos (show MAX_CONSECUTIVE_LOSSES ≤ portfolio.consecutive_losses from h)]

/-- Witness for C4 at the concrete breaker portfolio. -/
theorem approve_trade_circuit_breakers_witness :
    (approve_trade exampleSignalNarrow breakerPortfolio defaultStats).approved = false ∧
    (approve_trade exampleSignalNarrow breakerPortfolio defaultStats).reasoning =
      .dailyLossLimit :=
  (approve_trade_circuit_breakers exampleSignalNarrow defaultStats breakerPortfolio
      (by norm_num [breakerPortfolio])).1
    (by norm_num [breakerPortfolio])

/-- Claim C5: the spec's two worked examples. With balance 10000, win rate
0.55, average win 100, average loss 50: entry 10 / stop 5 is rejected as
too small (floor(200/500) = 0), while entry 2 / stop 1 is approved with
position size 2 and max loss 200. -/
theorem approve_trade_worked_examples :
    approve_trade exampleSignalWide examplePortfolio defaultStats =
      { approved := false, reasoning := .positionTooSmall } ∧
    approve_trade exampleSignalNarrow examplePortfolio defaultStats =
      { approved := true, position_size := 2, max_loss := 200,
        reasoning := .kellyApproved } := by
  constructor <;>
    norm_num [approve_trade, pyInt, MAX_CONSECUTIVE_LOSSES, MAX_PORTFOLIO_RISK,
      MAX_POSITION_SIZE, DAILY_LOSS_LIMIT, defaultStats, examplePortfolio,
      exampleSignalWide, exampleSignalNarrow]

/-- Claim C9: every approval respects the hard caps: the returned max loss
is at most 2 percent of balance, and position size times entry price times
the 100-share multiplier is at most 5 percent of balance. -/
theorem approve_trade_caps (signal : Signal) (portfolio : Portfolio)
    (stats : StrategyStats) (hentry : 0 < signal.entry_price)
    (hbal : 0 < portfolio.balance)
    (happ : (approve_trade signal portfolio stats).approved = true) :
    (approve_trade signal portfolio stats).max_loss ≤ 2 / 100 * portfolio.balance ∧
    ((approve_trade signal portfolio stats).position_size : ℚ) *
        signal.entry_price * 100 ≤ 5 / 100 * portfolio.balance := by
  unfold approve_trade at happ ⊢
  dsimp only at happ ⊢
  split_ifs at happ ⊢ with h1 h2 h3 h4 h5
  set kh := min
    ((stats.win_rate * stats.avg_win - (1 - stats.win_rate) * stats.avg_loss) /
      stats.avg_win * (1 / 2)) MAX_PORTFOLIO_RISK with hkh
  set rpc := |signal.entry_price - signal.stop_loss| * 100 with hrpc
  have hkh0 : 0 < kh := lt_of_not_le h3
  have hrpc0 : 0 < rpc := by
    rcases lt_or_eq_of_le (mul_nonneg (abs_nonneg _) (by norm_num : (0:ℚ) ≤ 100)) with h | h
    · exact h
    · exact absurd h.symm h4
  have hkhMax : kh ≤ MAX_PORTFOLIO_RISK := min_le_right _ _
  set kA := pyInt (portfolio.balance * kh / rpc) with hkA
  set kB := pyInt (portfolio.balance * MAX_POSITION_SIZE /
    (signal.entry_price * 100)) with hkB
  constructor
  · have hAle : ((min kA kB : ℤ) : ℚ) ≤ portfolio.balance * kh / rpc := by
      calc ((min kA kB : ℤ) : ℚ) ≤ (kA : ℚ) := by exact_mod_cast min_le_left kA kB
        _ ≤ portfolio.balance * kh / rpc :=
          pyInt_le_self (by positivity)
    calc rpc * ((min kA kB : ℤ) : ℚ)
        ≤ rpc * (portfolio.balance * kh / rpc) := by
          exact mul_le_mul_of_nonneg_left hAle (le_of_lt hrpc0)
      _ = portfolio.balance * kh := by
          field_simp
      _ ≤ portfolio.balance * MAX_PORTFOLIO_RISK :=
          mul_le_mul_of_nonneg_left hkhMax (le_of_lt hbal)
      _ = 2 / 100 * portfolio.balance := by rw [MAX_PORTFOLIO_RISK]; ring
  · have hBle : ((min kA kB : ℤ) : ℚ) ≤
        portfolio.balance * MAX_POSITION_SIZE / (signal.entry_price * 100) := by
      calc ((min kA kB : ℤ) : ℚ) ≤ (kB : ℚ) := by exact_mod_cast min_le_right kA kB
        _ ≤ portfolio.balance * MAX_POSITION_SIZE / (signal.entry_price * 100) :=
          pyInt_le_self (by rw [MAX_POSITION_SIZE]; positivity)
    calc ((min kA kB : ℤ) : ℚ) * signal.entry_price * 100
        = ((min kA kB : ℤ) : ℚ) * (signal.entry_price * 100) := by ring
      _ ≤ portfolio.balance * MAX_POSITION_SIZE / (signal.entry_price * 100) *
          (signal.entry_price * 100) := by
          exact mul_le_mul_of_nonneg_right hBle (by positivity)
      _ = portfolio.balance * MAX_POSITION_SIZE := by
          field_simp
      _ = 5 / 100 * portfolio.balance := by rw [MAX_POSITION_SIZE]; ring

/-- Witness for C9 at the second worked example (approved with size 2). -/
theorem approve_trade_caps_witness :
    (approve_trade exampleSignalNarrow examplePortfolio defaultStats).max_loss ≤
        2 / 100 * examplePortfolio.balance ∧
    ((approve_trade exampleSignalNarrow examplePortfolio defaultStats).position_size : ℚ) *
        exampleSignalNarrow.entry_price * 100 ≤ 5 / 100 * examplePortfolio.balance :=
  approve_trade_caps exampleSignalNarrow examplePortfolio defaultStats
    (by norm_num [exampleSignalNarrow]) (by norm_num [examplePortfolio])
    (by norm_num [approve_trade, pyInt, MAX_CONSECUTIVE_LOSSES, MAX_PORTFOLIO_RISK,
      MAX_POSITION_SIZE, DAILY_LOSS_LIMIT, defaultStats, examplePortfolio,
      exampleSignalNarrow])

/-- Counterexample to claim C1 as stated: at T = 0 (degenerate input) the
call delta is N(0) = 1/2, not 0, because calculate_call_delta has no
degenerate guard of its own — it applies norm_cdf to the guarded d1 = 0. -/
theorem greeks_degenerate_cex :
    calculate_call_delta 100 100 0 (5 / 100) (3 / 10) ≠ 0 := by
  have h : calculate_call_delta 100 100 0 (5 / 100) (3 / 10) = 1 / 2 := by
    rw [calculate_call_delta, calculate_d1_d2, if_pos (Or.inl le_rfl)]
    exact norm_cdf_zero
  rw [h]
  norm_num

/-- Claim C1 amended: for degenerate inputs (T <= 0 or sigma <= 0) gamma,
vega, call theta and put theta all return exactly 0, but call delta
returns 1/2 and put delta returns -1/2 (from the guarded d1 = 0). -/
theorem greeks_degenerate (S K T r sigma : ℝ) (h : T ≤ 0 ∨ sigma ≤ 0) :
    calculate_gamma S K T r sigma = 0 ∧
    calculate_vega S K T r sigma = 0 ∧
    calculate_call_theta S K T r sigma = 0 ∧
    calculate_put_theta S K T r sigma = 0 ∧
    calculate_call_delta S K T r sigma = 1 / 2 ∧
    calculate_put_delta S K T r sigma = -(1 / 2) := by
  refine ⟨?_, ?_, ?_, ?_, ?_, ?_⟩
  · rw [calculate_gamma, if_pos h]
  · rw [calculate_vega, if_pos h]
  · rw [calculate_call_theta, if_pos h]
  · rw [calculate_put_theta, if_pos h]
  · rw [calculate_call_delta, calculate_d1_d2, if_pos h]
    exact norm_cdf_zero
  · rw [calculate_put_delta, calculate_d1_d2, if_pos h, norm_cdf_zero]
    norm_num

/-- Witness for the amended C1 at the concrete degenerate input T = 0. -/
theorem greeks_degenerate_witness :
    ((0:ℝ) ≤ 0 ∨ (3 / 10 : ℝ) ≤ 0) ∧
    (calculate_gamma 100 100 0 (5 / 100) (3 / 10) = 0 ∧
     calculate_vega 100 100 0 (5 / 100) (3 / 10) = 0 ∧
     calculate_call_theta 100 100 0 (5 / 100) (3 / 10) = 0 ∧
     calculate_put_theta 100 100 0 (5 / 100) (3 / 10) = 0 ∧
     calculate_call_delta 100 100 0 (5 / 100) (3 / 10) = 1 / 2 ∧
     calculate_put_delta 100 100 0 (5 / 100) (3 / 10) = -(1 / 2)) :=
  ⟨Or.inl le_rfl, greeks_degenerate 100 100 0 (5 / 100) (3 / 10) (Or.inl le_rfl)⟩

/-- Counterexample to claim C2 as stated: for the concrete setup with
call and put spread credits 0.50 each (total credit 1.00), the signed net
credit of the produced legs is (0.25 + 0.25) - (0.125 + 0.125) = 0.25,
not the setup's total credit 1.00. -/
theorem create_multi_leg_order_cex :
    signedNetCredit (create_multi_leg_order exampleSetup) ≠
      exampleSetup.total_credit := by
  norm_num [signedNetCredit, create_multi_leg_order, exampleSetup]

/-- Claim C2 amended: create_multi_leg_order always returns exactly 4 legs
(sell call, buy call, sell put, buy put), its net_credit field carries
setup.total_credit, but the signed net credit of the leg limit prices is
(call_spread_credit + put_spread_credit) / 4 — one quarter of the total
credit for setups whose total_credit is the sum of the two spread
credits, not the total credit itself. -/
theorem create_multi_leg_order_legs (setup : IronCondorSetup) :
    (create_multi_leg_order setup).legs.length = 4 ∧
    (create_multi_leg_order setup).legs.map OptionLeg.side =
      [.sell, .buy, .sell, .buy] ∧
    (create_multi_leg_order setup).legs.map OptionLeg.option_type =
      [.call, .call, .put, .put] ∧
    (create_multi_leg_order setup).net_credit = some setup.total_credit ∧
    signedNetCredit (create_multi_leg_order setup) =
      (setup.call_spread_credit + setup.put_spread_credit) / 4 := by
  refine ⟨rfl, rfl, rfl, rfl, ?_⟩
  simp only [signedNetCredit, create_multi_leg_order, List.map_cons,
    List.map_nil, List.sum_cons, List.sum_nil, Option.getD_some]
  ring

/-- Claim C10: for every IronCondorSetup whose underlying contains no
digits, whose expiration is a valid date in 2000-2099, and whose strikes
are non-negative integral multiples of 0.001, parse_option_symbol applied
to the OCC symbol of each leg produced by create_multi_leg_order recovers
that leg's underlying, expiration date, option-type letter and strike. -/
theorem parse_create_multi_leg_order (setup : IronCondorSetup)
    (hU : ∀ c ∈ setup.underlying_symbol, c.isDigit = false)
    (hy1 : 2000 ≤ setup.expiration.year) (hy2 : setup.expiration.year ≤ 2099)
    (hv : datetimeValid setup.expiration.year setup.expiration.month
      setup.expiration.day = true)
    (ksc klc ksp klp : ℕ)
    (hsc : setup.short_call_strike = (ksc : ℚ) / 1000)
    (hlc : setup.long_call_strike = (klc : ℚ) / 1000)
    (hsp : setup.short_put_strike = (ksp : ℚ) / 1000)
    (hlp : setup.long_put_strike = (klp : ℚ) / 1000) :
    ∀ leg ∈ (create_multi_leg_order setup).legs,
      parse_option_symbol leg.symbol =
        some ⟨setup.underlying_symbol, setup.expiration,
          optTypeChar leg.option_type, leg.strike⟩ := by
  intro leg hleg
  simp only [create_multi_leg_order, List.mem_cons, List.not_mem_nil,
    or_false] at hleg
  rcases hleg with h | h | h | h
  · subst h
    dsimp only [optTypeChar]
    rw [hsc, format_strike_nat]
    exact parse_mkOcc _ hU _ hy1 hy2 hv 'C' ksc
  · subst h
    dsimp only [optTypeChar]
    rw [hlc, format_strike_nat]
    exact parse_mkOcc _ hU _ hy1 hy2 hv 'C' klc
  · subst h
    dsimp only [optTypeChar]
    rw [hsp, format_strike_nat]
    exact parse_mkOcc _ hU _ hy1 hy2 hv 'P' ksp
  · subst h
    dsimp only [optTypeChar]
    rw [hlp, format_strike_nat]
    exact parse_mkOcc _ hU _ hy1 hy2 hv 'P' klp

/-- Witness for C10: the round trip evaluated on the sell-short-call leg of
the concrete SPY setup. -/
theorem parse_create_multi_leg_order_witness :
    exampleShortCallLeg ∈ (create_multi_leg_order exampleSetup).legs ∧
    parse_option_symbol exampleShortCallLeg.symbol =
      some ⟨exampleSetup.underlying_symbol, exampleSetup.expiration,
        optTypeChar exampleShortCallLeg.option_type,
        exampleShortCallLeg.strike⟩ := by
  have hmem : exampleShortCallLeg ∈ (create_multi_leg_order exampleSetup).legs := by
    simp only [create_multi_leg_order, exampleSetup, exampleShortCallLeg,
      List.mem_cons]
    left
    norm_num
  refine ⟨hmem, ?_⟩
  exact parse_create_multi_leg_order exampleSetup (by decide)
    (by norm_num [exampleSetup]) (by norm_num [exampleSetup]) (by decide)
    600000 605000 580000 575000
    (by norm_num [exampleSetup]) (by norm_num [exampleSetup])
    (by norm_num [exampleSetup]) (by norm_num [exampleSetup])
    exampleShortCallLeg hmem

/-- Counterexample to claim C3 as stated: evaluated at 16:00 (at or after
15:50) the momentum evaluator returns the 11:30 force-close reason, not
the absolute final 15:50 force-close reason — the 11:30 check runs first
and already fires. -/
theorem momentum_force_close_cex :
    check_strategy_specific_exit momentumPos (envAt ⟨16, 0, 0⟩) =
      some .momentumForceClose1130 ∧
    check_strategy_specific_exit momentumPos (envAt ⟨16, 0, 0⟩) ≠
      some .momentumFinalForceClose1550 := by
  constructor
  · rfl
  · decide

/-- Claim C3 amended: for a momentum-scalping position, evaluated at or
after 11:30 exchange-local time (including at or after 15:50) the
evaluator returns the 11:30 avoid-decay force-close reason; the 15:50
final force-close branch is unreachable dead code; before 11:30 the only
possible exit reasons are the 50 percent profit target and the 50
percent stop on the price move. -/
theorem momentum_exit_time_boxed (position : Position) (env : Env)
    (hname : strategyLower position.strategy = "momentum_scalping".toList) :
    (timeLe time1130 env.now.time = true →
      check_strategy_specific_exit position env =
        some .momentumForceClose1130) ∧
    check_strategy_specific_exit position env ≠
      some .momentumFinalForceClose1550 ∧
    (timeLe time1130 env.now.time = false →
      ∀ r, check_strategy_specific_exit position env = some r →
        r = .momentumProfitTarget50 ∨ r = .momentumStopLoss50) := by
  have hd : check_strategy_specific_exit position env =
      momentum_exit position env.now.time := by
    simp only [check_strategy_specific_exit, hname, eq_self_iff_true, true_or,
      if_true]
  refine ⟨?_, ?_, ?_⟩
  · intro h
    rw [hd, momentum_exit, if_pos h]
  · rw [hd, momentum_exit]
    by_cases h1 : timeLe time1130 env.now.time = true
    · rw [if_pos h1]
      simp
    · have h2 : ¬ timeLe time1550 env.now.time = true :=
        fun hc => h1 (timeLe_1130_of_1550 hc)
      rw [if_neg h1, if_neg h2]
      cases hcp : position.current_price with
      | none => simp
      | some cp =>
        dsimp only
        split_ifs <;> simp
  · intro h1 r hr
    rw [hd, momentum_exit, if_neg (by simp [h1])] at hr
    have h2 : ¬ timeLe time1550 env.now.time = true := by
      intro hc
      rw [timeLe_1130_of_1550 hc] at h1
      exact Bool.noConfusion h1
    rw [if_neg h2] at hr
    cases hcp : position.current_price with
    | none => rw [hcp] at hr; exact Option.noConfusion hr
    | some cp =>
      rw [hcp] at hr
      dsimp only at hr
      split_ifs at hr
      · exact Or.inl (Option.some.inj hr).symm
      · exact Or.inr (Option.some.inj hr).symm

/-- Witness for the amended C3 at noon: the force close fires. -/
theorem momentum_exit_time_boxed_witness :
    strategyLower momentumPos.strategy = "momentum_scalping".toList ∧
    timeLe time1130 (envAt ⟨12, 0, 0⟩).now.time = true ∧
    check_strategy_specific_exit momentumPos (envAt ⟨12, 0, 0⟩) =
      some .momentumForceClose1130 :=
  ⟨by decide, by decide,
    (momentum_exit_time_boxed momentumPos (envAt ⟨12, 0, 0⟩) (by decide)).1
      (by decide)⟩

/-- Claim C7: for an iron-condor position with at least 4 legs, if the
quote lookup returns no quote for any one of its legs, the iron-condor
exit evaluator returns no exit reason for that position this cycle. -/
theorem condor_exit_missing_quote (position : Position) (env : Env)
    (hlegs : 4 ≤ position.legs.length)
    (hmiss : ∃ leg ∈ position.legs, env.tick leg.symbol = none) :
    condor_exit position env = none := by
  rw [condor_exit, if_neg (by omega),
    legValues_none_of_missing env.tick position.legs hmiss]

/-- Witness for C7: the concrete 4-leg condor position in an environment
with no quotes at all. -/
theorem condor_exit_missing_quote_witness :
    4 ≤ condorPos.legs.length ∧
    (∃ leg ∈ condorPos.legs, (envAt ⟨10, 0, 0⟩).tick leg.symbol = none) ∧
    condor_exit condorPos (envAt ⟨10, 0, 0⟩) = none := by
  have hmiss : ∃ leg ∈ condorPos.legs, (envAt ⟨10, 0, 0⟩).tick leg.symbol = none :=
    ⟨⟨"SPY251217C00600000".toList, .sell, 1, .call, 600⟩, by decide, rfl⟩
  exact ⟨by decide, hmiss,
    condor_exit_missing_quote condorPos (envAt ⟨10, 0, 0⟩) (by decide) hmiss⟩

/-- Counterexample to claim C8 as stated: the exit decision is not a
function of the position alone — the same unmutated momentum position
evaluates to no exit at 11:29 and to the 11:30 force close at 11:31,
because the evaluator reads the ambient wall clock. -/
theorem evaluate_exit_clock_cex :
    check_strategy_specific_exit momentumPos (envAt ⟨11, 29, 0⟩) = none ∧
    check_strategy_specific_exit momentumPos (envAt ⟨11, 31, 0⟩) =
      some .momentumForceClose1130 := by
  constructor <;> rfl

/-- Claim C8 amended: the exit evaluator is a pure function of the
position together with the ambient clock reading and quote snapshot:
two evaluations of the same unmutated position agree whenever the clock
and the quote source agree (but may differ across clock readings). -/
theorem evaluate_exit_deterministic (position : Position) (e₁ e₂ : Env)
    (hnow : e₁.now = e₂.now) (htick : ∀ s, e₁.tick s = e₂.tick s) :
    check_strategy_specific_exit position e₁ =
      check_strategy_specific_exit position e₂ := by
  have he : e₁ = e₂ := by
    obtain ⟨n₁, t₁⟩ := e₁
    obtain ⟨n₂, t₂⟩ := e₂
    have h1 : n₁ = n₂ := hnow
    have h2 : t₁ = t₂ := funext htick
    rw [h1, h2]
  rw [he]

/-- Witness for the amended C8 at a concrete position and environment. -/
theorem evaluate_exit_deterministic_witness :
    check_strategy_specific_exit momentumPos (envAt ⟨11, 29, 0⟩) =
      check_strategy_specific_exit momentumPos (envAt ⟨11, 29, 0⟩) :=
  evaluate_exit_deterministic momentumPos (envAt ⟨11, 29, 0⟩)
    (envAt ⟨11, 29, 0⟩) rfl (fun _ => rfl)

/-- Claim C6: within one monitor cycle, a failure raised while evaluating
the exit conditions of one position, or while closing it, does not
prevent any remaining position from being evaluated in that same cycle
— the outcomes of the positions before and after it are exactly those of
their own processing — and the failed position stays open. -/
theorem monitor_fault_isolation
    (eval : Position → Except String (Option ExitReason))
    (close : Position → Except String CloseResult)
    (ps₁ : List Position) (p : Position) (ps₂ : List Position) :
    (∀ e, eval p = .error e →
      monitorCycle eval close (ps₁ ++ p :: ps₂) =
        monitorCycle eval close ps₁ ++
          .errorCaught e :: monitorCycle eval close ps₂ ∧
      statusAfter eval close p = .opened) ∧
    (∀ r e, eval p = .ok (some r) → close p = .error e →
      monitorCycle eval close (ps₁ ++ p :: ps₂) =
        monitorCycle eval close ps₁ ++
          .errorCaught e :: monitorCycle eval close ps₂ ∧
      statusAfter eval close p = .opened) := by
  constructor
  · intro e he
    constructor
    · rw [monitorCycle_append]
      simp [monitorCycle, processPosition, he]
    · simp [statusAfter, processPosition, he]
  · intro r e hr hc
    constructor
    · rw [monitorCycle_append]
      simp [monitorCycle, processPosition, hr, hc]
    · simp [statusAfter, processPosition, hr, hc]

/-- Witness for C6: a concrete cycle where evaluating the first position
raises; the second position is still processed and the first stays open. -/
theorem monitor_fault_isolation_witness :
    failingEval momentumPos = .error "tick fetch failed" ∧
    (monitorCycle failingEval alwaysClose ([] ++ momentumPos :: [otherPos]) =
      monitorCycle failingEval alwaysClose [] ++
        .errorCaught "tick fetch failed" ::
          monitorCycle failingEval alwaysClose [otherPos] ∧
    statusAfter failingEval alwaysClose momentumPos = .opened) :=
  ⟨rfl,
    (monitor_fault_isolation failingEval alwaysClose [] momentumPos
      [otherPos]).1 "tick fetch failed" rfl⟩

end TradeOracle

